import Mathlib

/-
  Verification development for the LueLue card-game backend.

  Shallow embedding of the Rust sources:
    - src/enums/card_types.rs, src/enums/game_state.rs
    - src/types/card.rs, src/types/player.rs, src/types/chat.rs,
      src/types/claim.rs, src/types/game.rs
    - src/utils/game_service.rs
    - src/repositories/game_repository.rs
  Machine integers (usize, u32) are modelled as Nat, with explicit
  reduction modulo 2^32 where the source wraps. Fallible Rust functions
  returning Result are modelled with Except; functions mutating
  self are modelled by explicit state passing. Database effects are
  modelled by explicit inputs (the query outcome) and explicit traces
  of the repository operations that are issued.
-/

/-- Card types of the game (enum CardType, src/enums/card_types.rs). -/
inductive CardType where
  | King
  | Queen
  | Jack
  | Ace
  | Joker
deriving DecidableEq, Repr

namespace CardType

/-- CardType::index — index mapping of the variants. -/
def index : CardType → Nat
  | King => 0
  | Queen => 1
  | Jack => 2
  | Ace => 3
  | Joker => 4

/-- CardType::number_of_values — number of enum variants. -/
def number_of_values : Nat := 5

/-- CardType::from_usize — builds a variant from a usize, first reducing
it modulo the number of variants; the final match arm (the Rust range
pattern starting at 5) logs a warning and falls back to King. -/
def from_usize (num : Nat) : CardType :=
  let used_num := num % number_of_values
  match used_num with
  | 0 => King
  | 1 => Queen
  | 2 => Jack
  | 3 => Ace
  | 4 => Joker
  | _ => King

/-- Guard of the warning fallback arm of CardType::from_usize: true
exactly when the reduced value falls into the Rust range pattern
starting at 5. -/
def from_usize_fallback (num : Nat) : Bool :=
  decide (5 ≤ num % number_of_values)

end CardType

/-- Game states (enum GameState, src/enums/game_state.rs). -/
inductive GameState where
  | InProgress
  | Ended
  | WaitingForPlayers
  | Starting
deriving DecidableEq, Repr

namespace GameState

/-- GameState::index — index mapping of the variants. -/
def index : GameState → Nat
  | InProgress => 0
  | Ended => 1
  | WaitingForPlayers => 2
  | Starting => 3

end GameState

/-- The Card struct (src/types/card.rs). -/
structure Card where
  id : String
  card_type : CardType
deriving DecidableEq, Repr

/-- The hand-written impl Clone for Card (src/types/card.rs): the id is
cloned as is, and the card_type is rebuilt by a match that sends Joker
to Jack and every other variant to itself. -/
def Card.clone (c : Card) : Card :=
  { id := c.id,
    card_type :=
      match c.card_type with
      | CardType.Ace => CardType.Ace
      | CardType.King => CardType.King
      | CardType.Joker => CardType.Jack
      | CardType.Queen => CardType.Queen
      | CardType.Jack => CardType.Jack }

/-- The Player struct (src/types/player.rs). -/
structure Player where
  id : String
  name : String
  score : Nat
  joined_at : String
  assigned_cards : List Card
  game_id : String
  last_time_update_requested : String
deriving DecidableEq, Repr

/-- The derived Clone for Player: every field is cloned, so the list of
assigned cards is cloned element-wise through Card::clone. -/
def Player.clone (p : Player) : Player :=
  { id := p.id,
    name := p.name,
    score := p.score,
    joined_at := p.joined_at,
    assigned_cards := p.assigned_cards.map Card.clone,
    game_id := p.game_id,
    last_time_update_requested := p.last_time_update_requested }

/-- The ChatMessage struct (src/types/chat.rs). -/
structure ChatMessage where
  id : String
  player_id : String
  content : String
  sent_at : String
deriving DecidableEq, Repr

/-- The Chat struct (src/types/chat.rs). -/
structure Chat where
  id : String
  messages : List ChatMessage
  number_of_messages : Nat
deriving DecidableEq, Repr

/-- The derived Clone for Chat: all fields of a chat message are
strings, so cloning is field-wise identity. -/
def Chat.clone (c : Chat) : Chat :=
  { id := c.id,
    messages := c.messages,
    number_of_messages := c.number_of_messages }

/-- The Claim struct (src/types/claim.rs). -/
structure Claim where
  created_by : String
  number_of_cards : Nat
  cards : List Card
deriving DecidableEq, Repr

/-- The derived Clone for Claim: the card list is cloned element-wise
through Card::clone. -/
def Claim.clone (c : Claim) : Claim :=
  { created_by := c.created_by,
    number_of_cards := c.number_of_cards,
    cards := c.cards.map Card.clone }

/-- MAX_CARDS_PER_CLAIM (src/types/claim.rs). -/
def MAX_CARDS_PER_CLAIM : Nat := 4

/-- The BadClientRequest error (src/errors/bad_client_request.rs); the
axum Json wrapper around the payload is modelled as the payload
itself. -/
structure BadClientRequest (T : Type) where
  message : String
  bad_data : T
deriving DecidableEq, Repr

/-- Claim::new (src/types/claim.rs): rejects a claim whose
number_of_cards exceeds MAX_CARDS_PER_CLAIM, with the error carrying a
clone of the offending data; otherwise builds the claim from the given
fields. -/
def Claim.new (created_by : String) (number_of_cards : Nat) (cards : List Card) :
    Except (BadClientRequest Claim) Claim :=
  if number_of_cards > MAX_CARDS_PER_CLAIM then
    Except.error
      { message := "The user handed in an invalid claim object!",
        bad_data :=
          { created_by := created_by,
            number_of_cards := number_of_cards,
            cards := cards.map Card.clone } }
  else
    Except.ok { created_by := created_by, number_of_cards := number_of_cards, cards := cards }

/-- The ProcessError struct (src/errors/process_error.rs). -/
structure ProcessError (T : Type) where
  message : String
  name_of_function : String
  bad_data : Option T
deriving DecidableEq, Repr

/-- The DatabaseQueryError struct (src/errors/database_query_error.rs);
the axum StatusCode is modelled by its numeric value and the Json
wrapper around the payload as the payload itself. -/
structure DatabaseQueryError (T : Type) where
  message : String
  received_data : Option T
  status_code : Nat
deriving DecidableEq, Repr

/-- The Game struct (src/types/game.rs). -/
structure Game where
  id : String
  players : List Player
  which_player_turn : String
  state : GameState
  started_at : String
  round_number : Nat
  chat : Chat
  card_to_play : CardType
  claims : List Claim
deriving DecidableEq, Repr

/-- Game::from_ref (src/types/game.rs): clones every field of the
referenced game, so players and claims go through the derived clones
(and hence through Card::clone). -/
def Game.from_ref (game : Game) : Game :=
  { id := game.id,
    players := game.players.map Player.clone,
    which_player_turn := game.which_player_turn,
    state := game.state,
    started_at := game.started_at,
    card_to_play := game.card_to_play,
    chat := game.chat.clone,
    claims := game.claims.map Claim.clone,
    round_number := game.round_number }

/- ----- The seeded RNG of src/utils/game_service.rs ----- -/

/-- Addition of two 32-bit words, wrapping modulo 2^32. -/
def add32 (a b : Nat) : Nat := (a + b) % 4294967296

/-- Left rotation of a 32-bit word by n bits. -/
def rotl32 (x n : Nat) : Nat :=
  (((x <<< n) % 4294967296) ||| (x >>> (32 - n)))

/-- One ChaCha quarter round on the state words at positions a, b, c, d
of a 16-word state. -/
def quarter_round (a b c d : Nat) (s : List Nat) : List Nat :=
  let sa := s.getD a 0
  let sb := s.getD b 0
  let sc := s.getD c 0
  let sd := s.getD d 0
  let sa := add32 sa sb
  let sd := rotl32 (sd ^^^ sa) 16
  let sc := add32 sc sd
  let sb := rotl32 (sb ^^^ sc) 12
  let sa := add32 sa sb
  let sd := rotl32 (sd ^^^ sa) 8
  let sc := add32 sc sd
  let sb := rotl32 (sb ^^^ sc) 7
  ((((s.set a sa).set b sb).set c sc).set d sd)

/-- One ChaCha double round: the four column quarter rounds followed by
the four diagonal quarter rounds. -/
def double_round (s : List Nat) : List Nat :=
  s |> quarter_round 0 4 8 12 |> quarter_round 1 5 9 13
    |> quarter_round 2 6 10 14 |> quarter_round 3 7 11 15
    |> quarter_round 0 5 10 15 |> quarter_round 1 6 11 12
    |> quarter_round 2 7 8 13 |> quarter_round 3 4 9 14

/-- The initial ChaCha state: the four "expand 32-byte k" constants,
the eight key words, the 64-bit block counter and the 64-bit stream
number (as used by the rand_chacha crate). -/
def chacha_init (key counter stream : List Nat) : List Nat :=
  [1634760805, 857760878, 2036477234, 1797285236] ++ key ++ counter ++ stream

/-- ChaCha8 keystream block: 8 rounds (four double rounds) followed by
the word-wise wrapping addition of the initial state. -/
def chacha8_block (init : List Nat) : List Nat :=
  (double_round (double_round (double_round (double_round init)))).zipWith add32 init

/-- Modelled from the rand_chacha dependency (an external crate, not
part of this repository): ChaCha8Rng::from_seed(Default::default())
uses the all-zero 32-byte seed as key, block counter 0 and stream 0,
and next_u32 returns the first 32-bit word of the first keystream
block. -/
def chacha8_zero_seed_first_u32 : Nat :=
  (chacha8_block (chacha_init (List.replicate 8 0) [0, 0] [0, 0])).getD 0 0

/-- select_new_card_to_be_played (src/utils/game_service.rs): draws one
u32 from a ChaCha8 RNG freshly seeded with the default (all-zero) seed
and maps it into a CardType. -/
def select_new_card_to_be_played : CardType :=
  CardType.from_usize (chacha8_zero_seed_first_u32 % CardType.number_of_values)

/-- Game::prep_for_new_round (src/types/game.rs). The Rust method
mutates self and returns Result<(), ProcessError<Game>>; it is modelled
by returning the final state of self together with the optional error.
With no players it returns the error before any mutation; otherwise it
sets the turn to the first player, draws the new card to play, empties
the claims and increments the round number. -/
def Game.prep_for_new_round (g : Game) : Game × Option (ProcessError Game) :=
  match g.players with
  | [] =>
    (g, some
      { message := "Can\x27t prepare the game for the next round! There are no players in the game\x27s list!",
        name_of_function := "ProcessError::new()",
        bad_data := some (Game.from_ref g) })
  | p :: _ =>
    ({ g with
        which_player_turn := p.id,
        card_to_play := select_new_card_to_be_played,
        claims := [],
        round_number := g.round_number + 1 }, none)

/- ----- DTOs and the game repository (src/repositories/game_repository.rs) ----- -/

/-- The UpdateGameDTO struct (src/types/game.rs). -/
structure UpdateGameDTO where
  id : String
  players : Option (List Player)
  which_player_turn : Option String
  state : Option GameState
  round_number : Option Nat
  chat : Option Chat
  card_to_play : Option CardType
  claims : Option (List Claim)
deriving DecidableEq, Repr

/-- A JavaScript value passed as a query binding (wasm_bindgen JsValue):
the repository binds either strings or numeric enum indexes. -/
inductive JsValue where
  | str (s : String)
  | num (n : Nat)
deriving DecidableEq, Repr

/-- Rust String::truncate(new_len): keeps the first new_len bytes of the
string. All strings built by the query builder are ASCII, so bytes
coincide with characters. -/
def rust_truncate (s : String) (new_len : Nat) : String :=
  String.mk (s.data.take new_len)

/-- GameRepository::get_update_query_string_and_bindings
(src/repositories/game_repository.rs): starts from "UPDATE games SET ",
appends one "column = ?, " fragment and one binding per present
optional field (state, round_number, card_to_play, which_player_turn,
in that order), truncates the last two characters, appends the WHERE
clause and finally binds the id. -/
def get_update_query_string_and_bindings (game_data : UpdateGameDTO) :
    String × List JsValue :=
  let output_query := "UPDATE games SET "
  let output_bindings : List JsValue := []
  let (output_query, output_bindings) :=
    match game_data.state with
    | some state => (output_query ++ "state = ?, ", output_bindings ++ [JsValue.num state.index])
    | none => (output_query, output_bindings)
  let (output_query, output_bindings) :=
    match game_data.round_number with
    | some round => (output_query ++ "round_number = ?, ", output_bindings ++ [JsValue.num round])
    | none => (output_query, output_bindings)
  let (output_query, output_bindings) :=
    match game_data.card_to_play with
    | some card => (output_query ++ "card_to_play = ?, ", output_bindings ++ [JsValue.num card.index])
    | none => (output_query, output_bindings)
  let (output_query, output_bindings) :=
    match game_data.which_player_turn with
    | some player => (output_query ++ "which_player_turn = ?, ", output_bindings ++ [JsValue.str player])
    | none => (output_query, output_bindings)
  let output_query := rust_truncate output_query (output_query.length - 2)
  let output_query := output_query ++ " WHERE id = ? RETURNING *;"
  let output_bindings := output_bindings ++ [JsValue.str game_data.id]
  (output_query, output_bindings)

/-- Modelled from the spec sentence behind C6: the list of
"column = ?" assignments expected in the update query, one per present
optional field, in the order state, round_number, card_to_play,
which_player_turn. -/
def spec_update_assignments (d : UpdateGameDTO) : List String :=
  (match d.state with | some _ => ["state = ?"] | none => []) ++
  (match d.round_number with | some _ => ["round_number = ?"] | none => []) ++
  (match d.card_to_play with | some _ => ["card_to_play = ?"] | none => []) ++
  (match d.which_player_turn with | some _ => ["which_player_turn = ?"] | none => [])

/-- Modelled from the spec sentence behind C6: the expected well-formed
parameterized query string. -/
def spec_update_query (d : UpdateGameDTO) : String :=
  "UPDATE games SET " ++ String.intercalate ", " (spec_update_assignments d) ++
    " WHERE id = ? RETURNING *;"

/-- Modelled from the spec sentence behind C6: the expected bindings,
the values of the present optional fields in assignment order followed
by the id. -/
def spec_update_bindings (d : UpdateGameDTO) : List JsValue :=
  (match d.state with | some s => [JsValue.num s.index] | none => []) ++
  (match d.round_number with | some r => [JsValue.num r] | none => []) ++
  (match d.card_to_play with | some c => [JsValue.num c.index] | none => []) ++
  (match d.which_player_turn with | some p => [JsValue.str p] | none => []) ++
  [JsValue.str d.id]

/-- One database effect issued by
GameRepository::update_players_in_game through the player repository:
either PlayerRepository::delete_player on a player id or
PlayerRepository::add_player on a (cloned) player. -/
inductive PlayerOp where
  | delete (player_id : String)
  | add (player : Player)
deriving DecidableEq, Repr

/-- GameRepository::update_players_in_game
(src/repositories/game_repository.rs). The database reads and writes
are modelled explicitly: the result of
PlayerRepository::get_all_players for the game is the input
all_current_players, and the issued delete_player / add_player calls
are returned as a trace of PlayerOp (the repository calls are modelled
on their success path; on the first failing call the source returns
that error and issues nothing further). The source first rejects a
missing or empty player list, then deletes every current player (it
iterates over a clone of the current list) whose id does not occur in
the new list, then adds a clone of every new player whose id does not
occur among the current players, and finally returns the list of
current players it fetched. -/
def update_players_in_game (game_data : UpdateGameDTO)
    (all_current_players : List Player) :
    Except (DatabaseQueryError UpdateGameDTO) (List PlayerOp × List Player) :=
  match game_data.players with
  | none =>
    Except.error
      { message := "Function was called with invalid data passed to it! A new list of players is mandatory!",
        received_data := none,
        status_code := 500 }
  | some new_players =>
    if new_players.length = 0 then
      Except.error
        { message := "An empty list of players was provided! That\x27s an invalid data input!",
          received_data := none,
          status_code := 400 }
    else
      let delete_ops :=
        (all_current_players.map Player.clone).filterMap fun player =>
          match new_players.find? (fun p => p.id == player.id) with
          | none => some (PlayerOp.delete player.id)
          | some _ => none
      let add_ops :=
        new_players.filterMap fun player =>
          match all_current_players.find? (fun p => p.id == player.id) with
          | none => some (PlayerOp.add (Player.clone player))
          | some _ => none
      Except.ok (delete_ops ++ add_ops, all_current_players)

/-- Outcome of D1PreparedStatement::first on the database: either a
successful query with an optional row, or a database error carried as
its message. -/
inductive D1FirstResult (T : Type) where
  | ok (row : Option T)
  | err (msg : String)
deriving DecidableEq, Repr

/-- GameRepository::get_game_by_id
(src/repositories/game_repository.rs): the database outcome of the
SELECT query is the explicit input; a found row is returned as is, a
successful query without a row becomes a NOT_FOUND (404) error and a
failed query becomes an INTERNAL_SERVER_ERROR (500) error carrying the
database error message. -/
def get_game_by_id (query_result : D1FirstResult Game) :
    Except (DatabaseQueryError Game) Game :=
  match query_result with
  | D1FirstResult.ok (some game) => Except.ok game
  | D1FirstResult.ok none =>
    Except.error { message := "Game not found", received_data := none, status_code := 404 }
  | D1FirstResult.err e =>
    Except.error { message := e, received_data := none, status_code := 500 }

/- ----- Concrete sample data used by the witnesses ----- -/

/-- A concrete empty chat. -/
def sample_chat : Chat :=
  { id := "chat-1", messages := [], number_of_messages := 0 }

/-- A concrete player with the given id. -/
def sample_player (pid : String) : Player :=
  { id := pid, name := "Sam", score := 0, joined_at := "t0",
    assigned_cards := [], game_id := "g-1",
    last_time_update_requested := "t0" }

/-- A concrete game with the given players and turn holder. -/
def sample_game (players : List Player) (turn : String) : Game :=
  { id := "g-1", players := players, which_player_turn := turn,
    state := GameState.Starting, started_at := "t0", round_number := 1,
    chat := sample_chat, card_to_play := CardType.King, claims := [] }

/-- A concrete game with two players whose turn holder is already the
first player of the list. -/
def two_player_game : Game :=
  sample_game [sample_player "p1", sample_player "p2"] "p1"

/-- Helper: Player::clone preserves the player id. -/
theorem Player.clone_id (p : Player) : (Player.clone p).id = p.id := rfl

/- ----- Claim theorems ----- -/

/-- C1: for every game whose players list is non-empty,
prep_for_new_round succeeds (no error is returned), increments
round_number by exactly 1 and empties the claims list. -/
theorem prep_for_new_round_advances_round (g : Game) (h : g.players ≠ []) :
    (g.prep_for_new_round).2 = none ∧
    (g.prep_for_new_round).1.round_number = g.round_number + 1 ∧
    (g.prep_for_new_round).1.claims = [] := by
  cases hp : g.players with
  | nil => exact absurd hp h
  | cons p rest => simp [Game.prep_for_new_round, hp]

/-- Witness for C1 at a concrete one-player game. -/
theorem prep_for_new_round_advances_round_witness :
    ((sample_game [sample_player "p1"] "").prep_for_new_round).2 = none ∧
    ((sample_game [sample_player "p1"] "").prep_for_new_round).1.round_number =
      (sample_game [sample_player "p1"] "").round_number + 1 ∧
    ((sample_game [sample_player "p1"] "").prep_for_new_round).1.claims = [] :=
  prep_for_new_round_advances_round (sample_game [sample_player "p1"] "") (by decide)

/-- C8: prep_for_new_round reports an error exactly when the players
list is empty, and in the error case the game state is unchanged in
every field. -/
theorem prep_for_new_round_err_iff_empty_and_atomic (g : Game) :
    ((g.prep_for_new_round).2.isSome ↔ g.players = []) ∧
    (∀ e : ProcessError Game, (g.prep_for_new_round).2 = some e →
      (g.prep_for_new_round).1.round_number = g.round_number ∧
      (g.prep_for_new_round).1.claims = g.claims ∧
      (g.prep_for_new_round).1.which_player_turn = g.which_player_turn ∧
      (g.prep_for_new_round).1.card_to_play = g.card_to_play ∧
      (g.prep_for_new_round).1.state = g.state ∧
      (g.prep_for_new_round).1.chat = g.chat ∧
      (g.prep_for_new_round).1.players = g.players ∧
      (g.prep_for_new_round).1.id = g.id ∧
      (g.prep_for_new_round).1.started_at = g.started_at) := by
  cases hp : g.players with
  | nil => simp [Game.prep_for_new_round, hp]
  | cons p rest => simp [Game.prep_for_new_round, hp]

/-- Witness for C8 at a concrete game with no players. -/
theorem prep_for_new_round_err_iff_empty_and_atomic_witness :
    ((sample_game [] "x").prep_for_new_round).2.isSome ∧
    ((sample_game [] "x").prep_for_new_round).1.round_number =
      (sample_game [] "x").round_number := by
  have h1 : ((sample_game [] "x").prep_for_new_round).2.isSome :=
    (prep_for_new_round_err_iff_empty_and_atomic (sample_game [] "x")).1.mpr rfl
  exact ⟨h1, ((prep_for_new_round_err_iff_empty_and_atomic (sample_game [] "x")).2 _
    (Option.some_get h1).symm).1⟩

/-- C4 counterexample: a game with two players whose turn holder is
already the first player of the list; prep_for_new_round succeeds but
which_player_turn is unchanged, so the round transition does not move
the turn to another player. -/
theorem prep_for_new_round_turn_counterexample :
    1 < two_player_game.players.length ∧
    (two_player_game.prep_for_new_round).2 = none ∧
    (two_player_game.prep_for_new_round).1.which_player_turn =
      two_player_game.which_player_turn := by
  refine ⟨by decide, rfl, rfl⟩

/-- C4 amended: every successful prep_for_new_round sets
which_player_turn to the id of the first player of the list, so the
turn changes exactly when the previous holder was not the first
player. -/
theorem prep_for_new_round_sets_turn_to_first_player (g : Game) (p : Player)
    (rest : List Player) (hp : g.players = p :: rest) :
    (g.prep_for_new_round).2 = none ∧
    (g.prep_for_new_round).1.which_player_turn = p.id ∧
    (g.which_player_turn ≠ p.id →
      (g.prep_for_new_round).1.which_player_turn ≠ g.which_player_turn) := by
  refine ⟨by simp [Game.prep_for_new_round, hp], by simp [Game.prep_for_new_round, hp], ?_⟩
  intro hne
  simp [Game.prep_for_new_round, hp]
  exact fun heq => hne heq.symm

/-- Witness for C4 amended at a concrete two-player game whose turn
holder is the second player. -/
theorem prep_for_new_round_sets_turn_to_first_player_witness :
    ((sample_game [sample_player "p1", sample_player "p2"] "p2").prep_for_new_round).1.which_player_turn =
      (sample_player "p1").id ∧
    ((sample_game [sample_player "p1", sample_player "p2"] "p2").prep_for_new_round).1.which_player_turn ≠
      (sample_game [sample_player "p1", sample_player "p2"] "p2").which_player_turn := by
  have h := prep_for_new_round_sets_turn_to_first_player
    (sample_game [sample_player "p1", sample_player "p2"] "p2")
    (sample_player "p1") [sample_player "p2"] rfl
  exact ⟨h.2.1, h.2.2 (by decide)⟩

/-- C3: the card drawn by select_new_card_to_be_played is the fixed
value Ace — the RNG is rebuilt from the all-zero seed on every call,
so every invocation returns the same card type — and consequently
every successful round transition sets card_to_play to Ace. -/
theorem select_new_card_deterministic :
    select_new_card_to_be_played = CardType.Ace ∧
    ∀ g : Game, (g.prep_for_new_round).2 = none →
      (g.prep_for_new_round).1.card_to_play = CardType.Ace := by
  constructor
  · decide
  · intro g hg
    cases hp : g.players with
    | nil => simp [Game.prep_for_new_round, hp] at hg
    | cons p rest =>
      simp [Game.prep_for_new_round, hp]
      decide

/-- Witness for C3 at a concrete one-player game. -/
theorem select_new_card_deterministic_witness :
    ((sample_game [sample_player "p1"] "").prep_for_new_round).1.card_to_play =
      CardType.Ace :=
  select_new_card_deterministic.2 (sample_game [sample_player "p1"] "") rfl

/-- C5: Claim::new fails with a BadClientRequest exactly when
number_of_cards exceeds MAX_CARDS_PER_CLAIM (4), and otherwise returns
a claim carrying exactly the given created_by, number_of_cards and
cards. -/
theorem claim_new_card_limit :
    (∀ (cb : String) (n : Nat) (cards : List Card),
      (∃ e, Claim.new cb n cards = Except.error e) ↔ MAX_CARDS_PER_CLAIM < n) ∧
    (∀ (cb : String) (n : Nat) (cards : List Card), n ≤ MAX_CARDS_PER_CLAIM →
      Claim.new cb n cards =
        Except.ok { created_by := cb, number_of_cards := n, cards := cards }) := by
  constructor
  · intro cb n cards
    constructor
    · rintro ⟨e, he⟩
      by_contra hn
      simp [Claim.new, hn] at he
    · intro h
      exact ⟨_, by unfold Claim.new; rw [if_pos h]⟩
  · intro cb n cards h
    simp [Claim.new, Nat.not_lt.mpr h]

/-- Witness for C5: a five-card claim is rejected and a three-card
claim is accepted unchanged. -/
theorem claim_new_card_limit_witness :
    (∃ e, Claim.new "p1" 5 [] = Except.error e) ∧
    Claim.new "p1" 3 [] =
      Except.ok { created_by := "p1", number_of_cards := 3, cards := [] } :=
  ⟨(claim_new_card_limit.1 "p1" 5 []).mpr (by decide),
   claim_new_card_limit.2 "p1" 3 [] (by decide)⟩

/-- C7: get_game_by_id returns the row when one exists, a 404
DatabaseQueryError when the query succeeds without a row, and a 500
DatabaseQueryError carrying the database message when the query itself
fails. -/
theorem get_game_by_id_status_mapping :
    (∀ g : Game, get_game_by_id (D1FirstResult.ok (some g)) = Except.ok g) ∧
    (∃ e, get_game_by_id (D1FirstResult.ok none) = Except.error e ∧
      e.status_code = 404) ∧
    (∀ msg : String, ∃ e, get_game_by_id (D1FirstResult.err msg) = Except.error e ∧
      e.status_code = 500 ∧ e.message = msg) :=
  ⟨fun _ => rfl, ⟨_, rfl, rfl⟩, fun _ => ⟨_, rfl, rfl, rfl⟩⟩

/-- C9: from_usize inverts index, depends only on the argument modulo
5, and its warning fallback arm is unreachable. -/
theorem from_usize_total_inverse :
    (∀ c : CardType, CardType.from_usize c.index = c) ∧
    (∀ n : Nat, CardType.from_usize n = CardType.from_usize (n % 5)) ∧
    (∀ n : Nat, CardType.from_usize_fallback n = false) := by
  refine ⟨fun c => by cases c <;> rfl, fun n => ?_, fun n => ?_⟩
  · have h : n % 5 % 5 = n % 5 := Nat.mod_mod_of_dvd n (dvd_refl 5)
    simp [CardType.from_usize, CardType.number_of_values, h]
  · simp only [CardType.from_usize_fallback, CardType.number_of_values,
      decide_eq_false_iff_not]
    omega

/-- C10: Card::clone preserves the id, is the identity on the four
card types King, Queen, Jack and Ace, but turns a Joker into a Jack,
so it is not the identity on card_type. -/
theorem card_clone_spec :
    (∀ c : Card, (Card.clone c).id = c.id) ∧
    (∀ c : Card, c.card_type ≠ CardType.Joker →
      (Card.clone c).card_type = c.card_type) ∧
    (∀ c : Card, c.card_type = CardType.Joker →
      (Card.clone c).card_type = CardType.Jack) ∧
    (∃ c : Card, (Card.clone c).card_type ≠ c.card_type) := by
  refine ⟨fun c => rfl, fun c h => ?_, fun c h => by simp [Card.clone, h],
    ⟨{ id := "c1", card_type := CardType.Joker }, by decide⟩⟩
  cases hc : c.card_type <;> simp [Card.clone, hc]
  exact absurd hc h

/-- Witness for C10: cloning a concrete Joker card yields a Jack. -/
theorem card_clone_spec_witness :
    (Card.clone { id := "c1", card_type := CardType.Joker }).card_type =
      CardType.Jack :=
  card_clone_spec.2.2.1 { id := "c1", card_type := CardType.Joker } rfl

/-- A concrete UpdateGameDTO with every optional field absent. -/
def dto_all_none : UpdateGameDTO :=
  { id := "g-1", players := none, which_player_turn := none, state := none,
    round_number := none, chat := none, card_to_play := none, claims := none }

/-- A concrete UpdateGameDTO whose only present optional field is the
game state. -/
def dto_state_only : UpdateGameDTO :=
  { id := "g-1", players := none, which_player_turn := none,
    state := some GameState.Ended, round_number := none, chat := none,
    card_to_play := none, claims := none }

/-- C6 counterexample: on a DTO with no present optional field, the
unconditional truncation of the last two characters eats the final
"T " of "UPDATE games SET ", producing the malformed query
"UPDATE games SE WHERE id = ? RETURNING *;", which is not of the
claimed well-formed shape. -/
theorem update_query_all_none_malformed :
    (get_update_query_string_and_bindings dto_all_none).1 =
      "UPDATE games SE WHERE id = ? RETURNING *;" ∧
    (get_update_query_string_and_bindings dto_all_none).1 ≠
      spec_update_query dto_all_none := by
  refine ⟨rfl, by decide⟩

/-- C6 amended: whenever at least one of the four optional fields
state, round_number, card_to_play, which_player_turn is present, the
built query is exactly the well-formed parameterized UPDATE statement
with one assignment per present field in that order, and the bindings
list the present values in the same order followed by the id. -/
theorem update_query_refines_spec (d : UpdateGameDTO)
    (h : d.state.isSome ∨ d.round_number.isSome ∨ d.card_to_play.isSome ∨
      d.which_player_turn.isSome) :
    (get_update_query_string_and_bindings d).1 = spec_update_query d ∧
    (get_update_query_string_and_bindings d).2 = spec_update_bindings d := by
  obtain ⟨i, pl, wpt, st, rn, ch, ctp, cl⟩ := d
  cases st <;> cases rn <;> cases ctp <;> cases wpt <;>
    first
      | exact ⟨rfl, rfl⟩
      | exact absurd h (by simp)

/-- Witness for C6 amended at a concrete DTO carrying only a new game
state. -/
theorem update_query_refines_spec_witness :
    (get_update_query_string_and_bindings dto_state_only).1 =
      spec_update_query dto_state_only ∧
    (get_update_query_string_and_bindings dto_state_only).2 =
      spec_update_bindings dto_state_only :=
  update_query_refines_spec dto_state_only (Or.inl rfl)

/-- C2: with a present, non-empty new player list, the roster sync
succeeds and performs exactly the incremental diff: every current
player whose id is not among the new list is deleted, every new player
whose id is not among the current players is added (as a clone), and a
player whose id occurs on both sides is neither deleted nor added. -/
theorem update_players_in_game_diff (game_data : UpdateGameDTO)
    (current ps : List Player)
    (h1 : game_data.players = some ps) (h2 : ps ≠ []) :
    (update_players_in_game game_data current).isOk = true ∧
    ∀ ops res, update_players_in_game game_data current = Except.ok (ops, res) →
      res = current ∧
      (∀ p ∈ current, (∀ q ∈ ps, q.id ≠ p.id) → PlayerOp.delete p.id ∈ ops) ∧
      (∀ q ∈ ps, (∀ p ∈ current, p.id ≠ q.id) →
        PlayerOp.add (Player.clone q) ∈ ops) ∧
      (∀ p ∈ current, ∀ q ∈ ps, q.id = p.id →
        PlayerOp.delete p.id ∉ ops ∧
        ∀ r : Player, r.id = p.id → PlayerOp.add r ∉ ops) := by
  have hlen : ¬ ps.length = 0 := by
    cases ps with
    | nil => exact absurd rfl h2
    | cons a l => simp
  rw [update_players_in_game, h1]
  simp only [if_neg hlen]
  refine ⟨rfl, ?_⟩
  intro ops res heq
  injection heq with hpair
  injection hpair with hops hres
  subst hops
  subst hres
  refine ⟨rfl, ?_, ?_, ?_⟩
  · intro p hp hnone
    apply List.mem_append_left
    apply List.mem_filterMap.mpr
    refine ⟨Player.clone p, List.mem_map_of_mem Player.clone hp, ?_⟩
    have hfind : ps.find? (fun q => q.id == (Player.clone p).id) = none := by
      apply List.find?_eq_none.mpr
      intro q hq
      simp [Player.clone_id]
      exact hnone q hq
    rw [hfind]
    simp [Player.clone_id]
  · intro q hq hnone
    apply List.mem_append_right
    apply List.mem_filterMap.mpr
    refine ⟨q, hq, ?_⟩
    have hfind : current.find? (fun p => p.id == q.id) = none := by
      apply List.find?_eq_none.mpr
      intro p hp
      simp
      exact hnone p hp
    rw [hfind]
  · intro p hp q hq hid
    constructor
    · intro hmem
      rcases List.mem_append.mp hmem with hdel | hadd
      · rcases List.mem_filterMap.mp hdel with ⟨a, hamem, ha⟩
        rcases List.mem_map.mp hamem with ⟨b, hbmem, hb⟩
        rcases hfa : List.find? (fun p2 => p2.id == a.id) ps with _ | w
        · have hall := List.find?_eq_none.mp hfa q hq
          rw [hfa] at ha
          injection ha with ha2
          injection ha2 with ha3
          rw [ha3] at hall
          simp at hall
          exact hall hid
        · rw [hfa] at ha
          cases ha
      · rcases List.mem_filterMap.mp hadd with ⟨a, hamem, ha⟩
        rcases hfa : List.find? (fun p2 => p2.id == a.id) current with _ | w
        · rw [hfa] at ha
          injection ha with ha2
          cases ha2
        · rw [hfa] at ha
          cases ha
    · intro r hr hmem
      rcases List.mem_append.mp hmem with hdel | hadd
      · rcases List.mem_filterMap.mp hdel with ⟨a, hamem, ha⟩
        rcases hfa : List.find? (fun p2 => p2.id == a.id) ps with _ | w
        · rw [hfa] at ha
          injection ha with ha2
          cases ha2
        · rw [hfa] at ha
          cases ha
      · rcases List.mem_filterMap.mp hadd with ⟨a, hamem, ha⟩
        rcases hfa : List.find? (fun p2 => p2.id == a.id) current with _ | w
        · have hall := List.find?_eq_none.mp hfa p hp
          rw [hfa] at ha
          injection ha with ha2
          injection ha2 with ha3
          have haid : a.id = r.id := by rw [← ha3, Player.clone_id]
          rw [haid, hr] at hall
          simp at hall
        · rw [hfa] at ha
          cases ha

/-- Witness for C2 at a concrete DTO and current roster. -/
theorem update_players_in_game_diff_witness :
    (update_players_in_game
      { dto_all_none with players := some [sample_player "pA"] }
      [sample_player "pB"]).isOk = true :=
  (update_players_in_game_diff
    { dto_all_none with players := some [sample_player "pA"] }
    [sample_player "pB"] [sample_player "pA"] rfl (by decide)).1

